import Mathlib

/-!
Verification of the synchronization dispatcher of `hikari`
(`src/hikari/impl/stateful_event_factory.py`).

The dispatcher consumes typed gateway payloads, invokes an external decoder
(the entity factory), applies cache-mirror mutations and dispatches domain
events.  The handlers are embedded one-to-one from the Python source as
functions producing a trace of primitive actions (cache operations and
dispatches); the cache-mirror primitives themselves are not part of the
shown source, so their semantics are modelled from the specification
(section 4.1 of the spec).
-/

/-- The connected client's own user record (identity plus opaque data). -/
structure OwnUser where
  id : Nat
  data : Nat
deriving DecidableEq, Repr

/-- A guild record (identity plus opaque display data). -/
structure Guild where
  id : Nat
  data : Nat
deriving DecidableEq, Repr

/-- A guild channel, scoped to one guild, keyed by (guild_id, id). -/
structure GuildChannel where
  guild_id : Nat
  id : Nat
  data : Nat
deriving DecidableEq, Repr

/-- A custom emoji, scoped to one guild, keyed by (guild_id, id). -/
structure Emoji where
  guild_id : Nat
  id : Nat
  data : Nat
deriving DecidableEq, Repr

/-- A role, scoped to one guild, keyed by (guild_id, id). -/
structure Role where
  guild_id : Nat
  id : Nat
  data : Nat
deriving DecidableEq, Repr

/-- A guild member, keyed by (guild_id, user_id). -/
structure Member where
  guild_id : Nat
  user_id : Nat
  data : Nat
deriving DecidableEq, Repr

/-- A member presence, keyed by (guild_id, user_id). -/
structure Presence where
  guild_id : Nat
  user_id : Nat
  data : Nat
deriving DecidableEq, Repr

/-- A voice state, keyed by (guild_id, user_id). -/
structure VoiceState where
  guild_id : Nat
  user_id : Nat
  data : Nat
deriving DecidableEq, Repr

/-- The decoded READY event: own user plus the keys of the unavailable
guild mapping (`event.unavailable_guilds.keys()` in the source). -/
structure ReadyEvent where
  my_user : OwnUser
  unavailable_guilds : List Nat
deriving DecidableEq, Repr

/-- The decoded GUILD_CREATE snapshot event: the guild record and the six
decoded child collections (`.values()` of the decoded mappings). -/
structure GuildCreateEvent where
  guild : Guild
  channels : List GuildChannel
  emojis : List Emoji
  roles : List Role
  members : List Member
  presences : List Presence
  voice_states : List VoiceState
deriving DecidableEq, Repr

/-- The decoded GUILD_UPDATE event: the guild record plus its decoded
roles and emojis. -/
structure GuildUpdateEvent where
  guild : Guild
  roles : List Role
  emojis : List Emoji
deriving DecidableEq, Repr

/-- The raw GUILD_DELETE payload: the handler reads the raw `unavailable`
field (`payload.get("unavailable", False)`) before any decoding; the rest
of the payload is opaque to the handler and consumed by the decoder. -/
structure GuildDeletePayload where
  unavailable : Option Bool
  rest : Nat
deriving DecidableEq, Repr

/-- Domain events handed to the dispatch sink. -/
inductive Event where
  | connected
  | disconnected
  | resumed
  | ready (e : ReadyEvent)
  | channelCreate (c : GuildChannel)
  | channelUpdate (c : GuildChannel)
  | channelDelete (c : GuildChannel)
  | channelPinsUpdate (n : Nat)
  | guildCreate (e : GuildCreateEvent)
  | guildUpdate (e : GuildUpdateEvent)
  | guildUnavailable (id : Nat)
  | guildLeave (id : Nat)
  | guildBanAdd (n : Nat)
  | guildBanRemove (n : Nat)
  | guildEmojisUpdate (n : Nat)
  | guildIntegrationsUpdate (n : Nat)
  | guildMemberAdd (m : Member)
  | guildMemberRemove (n : Nat)
  | guildMemberUpdate (m : Member)
  | guildRoleCreate (r : Role)
  | guildRoleUpdate (r : Role)
  | guildRoleDelete (n : Nat)
  | inviteCreate (n : Nat)
  | inviteDelete (n : Nat)
  | messageCreate (n : Nat)
  | messageUpdate (n : Nat)
  | messageDelete (n : Nat)
  | messageDeleteBulk (n : Nat)
  | messageReactionAdd (n : Nat)
  | messageReactionRemove (n : Nat)
  | messageReactionRemoveAll (n : Nat)
  | messageReactionRemoveEmoji (n : Nat)
  | presenceUpdate (p : Presence)
  | typingStart (n : Nat)
  | userUpdate (u : OwnUser)
  | voiceStateUpdate (v : VoiceState)
  | voiceServerUpdate (n : Nat)
  | webhooksUpdate (n : Nat)
deriving DecidableEq, Repr

/-- Cache-mirror primitive operations, one per cache method called by the
handlers (plus `clearVoiceStates`, which exists on the mirror per the
specification but is never invoked by any handler). -/
inductive CacheOp where
  | updateMe (u : OwnUser)
  | setInitialUnavailableGuilds (ks : List Nat)
  | updateGuild (g : Guild)
  | setGuildAvailability (gid : Nat) (b : Bool)
  | deleteGuild (gid : Nat)
  | clearGuildChannels (gid : Nat)
  | setGuildChannel (c : GuildChannel)
  | clearEmojis (gid : Nat)
  | setEmoji (e : Emoji)
  | clearRoles (gid : Nat)
  | setRole (r : Role)
  | clearMembers (gid : Nat)
  | setMember (m : Member)
  | clearPresences (gid : Nat)
  | setPresence (p : Presence)
  | clearVoiceStates (gid : Nat)
  | setVoiceState (v : VoiceState)
deriving DecidableEq, Repr

/-- A primitive step taken by a handler: either a cache mutation or a
dispatch of a domain event to the sink. -/
inductive Step where
  | cacheOp (op : CacheOp)
  | dispatch (e : Event)
deriving DecidableEq, Repr

/-- The cache mirror: entity snapshots keyed by identity, scoped per
parent, plus the self-user singleton and the unavailable-guild set.
Modelled from the spec: section 3 (data model) and section 4.1 (cache
mirror contract); the cache implementation is outside the shown source. -/
structure CacheState where
  me : Option OwnUser
  unavailable_guilds : List Nat
  guilds : List Guild
  availability : List (Nat × Bool)
  channels : List GuildChannel
  emojis : List Emoji
  roles : List Role
  members : List Member
  presences : List Presence
  voice_states : List VoiceState
deriving DecidableEq, Repr

/-- The empty cache mirror. -/
def emptyCache : CacheState :=
  ⟨none, [], [], [], [], [], [], [], [], []⟩

/-- Keyed insert-or-overwrite: remove any entry with the same key, then
append the new record.  Modelled from the spec: `set(parentKey, childKey,
record)` is insert or overwrite and does not affect sibling children. -/
def setKeyed (key : α → Nat × Nat) (l : List α) (x : α) : List α :=
  l.filter (fun y => !(key y == key x)) ++ [x]

/-- Key of a guild channel within the mirror. -/
def channelKey (c : GuildChannel) : Nat × Nat := (c.guild_id, c.id)

/-- Key of an emoji within the mirror. -/
def emojiKey (e : Emoji) : Nat × Nat := (e.guild_id, e.id)

/-- Key of a role within the mirror. -/
def roleKey (r : Role) : Nat × Nat := (r.guild_id, r.id)

/-- Key of a member within the mirror. -/
def memberKey (m : Member) : Nat × Nat := (m.guild_id, m.user_id)

/-- Key of a presence within the mirror. -/
def presenceKey (p : Presence) : Nat × Nat := (p.guild_id, p.user_id)

/-- Key of a voice state within the mirror. -/
def voiceStateKey (v : VoiceState) : Nat × Nat := (v.guild_id, v.user_id)

/-- Semantics of one cache primitive on the mirror.  Modelled from the
spec, section 4.1: `set` is insert/overwrite, `clear(parent, kind)`
removes all children of that kind under the parent, `deleteGuild`
cascades a clear across every child kind, `updateGuild` is the
guild-level upsert realizing "upsert guild record and mark available"
of the guild-create recipe, `setAvailability` updates the guild's
availability flag, and `setInitialUnavailableGuilds` replaces the
unavailable-guild set. -/
def applyOp (op : CacheOp) (s : CacheState) : CacheState :=
  match op with
  | .updateMe u => { s with me := some u }
  | .setInitialUnavailableGuilds ks => { s with unavailable_guilds := ks }
  | .updateGuild g =>
      { s with
        guilds := s.guilds.filter (fun x => !(x.id == g.id)) ++ [g]
        availability := s.availability.filter (fun a => !(a.1 == g.id)) ++ [(g.id, true)] }
  | .setGuildAvailability gid b =>
      { s with availability := s.availability.filter (fun a => !(a.1 == gid)) ++ [(gid, b)] }
  | .deleteGuild gid =>
      { s with
        guilds := s.guilds.filter (fun x => !(x.id == gid))
        availability := s.availability.filter (fun a => !(a.1 == gid))
        channels := s.channels.filter (fun c => !(c.guild_id == gid))
        emojis := s.emojis.filter (fun e => !(e.guild_id == gid))
        roles := s.roles.filter (fun r => !(r.guild_id == gid))
        members := s.members.filter (fun m => !(m.guild_id == gid))
        presences := s.presences.filter (fun p => !(p.guild_id == gid))
        voice_states := s.voice_states.filter (fun v => !(v.guild_id == gid)) }
  | .clearGuildChannels gid =>
      { s with channels := s.channels.filter (fun c => !(c.guild_id == gid)) }
  | .setGuildChannel c => { s with channels := setKeyed channelKey s.channels c }
  | .clearEmojis gid =>
      { s with emojis := s.emojis.filter (fun e => !(e.guild_id == gid)) }
  | .setEmoji e => { s with emojis := setKeyed emojiKey s.emojis e }
  | .clearRoles gid =>
      { s with roles := s.roles.filter (fun r => !(r.guild_id == gid)) }
  | .setRole r => { s with roles := setKeyed roleKey s.roles r }
  | .clearMembers gid =>
      { s with members := s.members.filter (fun m => !(m.guild_id == gid)) }
  | .setMember m => { s with members := setKeyed memberKey s.members m }
  | .clearPresences gid =>
      { s with presences := s.presences.filter (fun p => !(p.guild_id == gid)) }
  | .setPresence p => { s with presences := setKeyed presenceKey s.presences p }
  | .clearVoiceStates gid =>
      { s with voice_states := s.voice_states.filter (fun v => !(v.guild_id == gid)) }
  | .setVoiceState v => { s with voice_states := setKeyed voiceStateKey s.voice_states v }

/-- Apply a trace of actions to the mirror; dispatches do not touch it. -/
def applySteps : List Step → CacheState → CacheState
  | [], s => s
  | .cacheOp op :: rest, s => applySteps rest (applyOp op s)
  | .dispatch _ :: rest, s => applySteps rest s

/-- The events a trace hands to the dispatch sink, in order. -/
def dispatchedEvents (tr : List Step) : List Event :=
  tr.filterMap (fun a =>
    match a with
    | .dispatch e => some e
    | .cacheOp _ => none)

/-- Current availability flag of a guild in the mirror (tri-state:
`some true` = available, `some false` = unavailable, `none` = absent). -/
def availabilityOf (s : CacheState) (gid : Nat) : Option Bool :=
  (s.availability.find? (fun a => a.1 == gid)).map (fun a => a.2)

/-- The external entity factory (decoder): one pure, fallible
deserializer per event kind, exactly the deserializers the handlers in
the source call.  Raw payloads other than guild-delete are opaque. -/
structure EntityFactory where
  deserialize_ready_event : Nat → Option ReadyEvent
  deserialize_channel_create_event : Nat → Option GuildChannel
  deserialize_channel_update_event : Nat → Option GuildChannel
  deserialize_channel_delete_event : Nat → Option GuildChannel
  deserialize_channel_pins_update_event : Nat → Option Nat
  deserialize_guild_create_event : Nat → Option GuildCreateEvent
  deserialize_guild_update_event : Nat → Option GuildUpdateEvent
  deserialize_guild_unavailable_event : Nat → Option Nat
  deserialize_guild_leave_event : Nat → Option Nat
  deserialize_guild_ban_add_event : Nat → Option Nat
  deserialize_guild_ban_remove_event : Nat → Option Nat
  deserialize_guild_emojis_update_event : Nat → Option Nat
  deserialize_guild_integrations_update_event : Nat → Option Nat
  deserialize_guild_member_add_event : Nat → Option Member
  deserialize_guild_member_remove_event : Nat → Option Nat
  deserialize_guild_member_update_event : Nat → Option Member
  deserialize_guild_role_create_event : Nat → Option Role
  deserialize_guild_role_update_event : Nat → Option Role
  deserialize_guild_role_delete_event : Nat → Option Nat
  deserialize_invite_create_event : Nat → Option Nat
  deserialize_invite_delete_event : Nat → Option Nat
  deserialize_message_create_event : Nat → Option Nat
  deserialize_message_update_event : Nat → Option Nat
  deserialize_message_delete_event : Nat → Option Nat
  deserialize_message_delete_bulk_event : Nat → Option Nat
  deserialize_message_reaction_add_event : Nat → Option Nat
  deserialize_message_reaction_remove_event : Nat → Option Nat
  deserialize_message_reaction_remove_all_event : Nat → Option Nat
  deserialize_message_reaction_remove_emoji_event : Nat → Option Nat
  deserialize_presence_update_event : Nat → Option Presence
  deserialize_typing_start_event : Nat → Option Nat
  deserialize_own_user_update_event : Nat → Option OwnUser
  deserialize_voice_state_update_event : Nat → Option VoiceState
  deserialize_voice_server_update_event : Nat → Option Nat
  deserialize_webhook_update_event : Nat → Option Nat

/-- Handler for the synthetic connected event (source `on_connected`):
dispatch only. -/
def on_connected : Option (List Step) :=
  some [Step.dispatch Event.connected]

/-- Handler for the synthetic disconnected event (source
`on_disconnected`): dispatch only. -/
def on_disconnected : Option (List Step) :=
  some [Step.dispatch Event.disconnected]

/-- Handler for READY (source `on_ready`): decode, `update_me` with the
decoded own user, `set_initial_unavailable_guilds` with the keys of the
decoded unavailable-guild mapping, then dispatch the ready event. -/
def on_ready (fac : EntityFactory) (payload : Nat) : Option (List Step) :=
  match fac.deserialize_ready_event payload with
  | none => none
  | some event =>
      some [Step.cacheOp (CacheOp.updateMe event.my_user),
            Step.cacheOp (CacheOp.setInitialUnavailableGuilds event.unavailable_guilds),
            Step.dispatch (Event.ready event)]

/-- Handler for RESUMED (source `on_resumed`): dispatch only. -/
def on_resumed : Option (List Step) :=
  some [Step.dispatch Event.resumed]

/-- Handler for CHANNEL_CREATE (source `on_channel_create`): decode and
dispatch. -/
def on_channel_create (fac : EntityFactory) (payload : Nat) : Option (List Step) :=
  (fac.deserialize_channel_create_event payload).map
    (fun e => [Step.dispatch (Event.channelCreate e)])

/-- Handler for CHANNEL_UPDATE (source `on_channel_update`): decode and
dispatch. -/
def on_channel_update (fac : EntityFactory) (payload : Nat) : Option (List Step) :=
  (fac.deserialize_channel_update_event payload).map
    (fun e => [Step.dispatch (Event.channelUpdate e)])

/-- Handler for CHANNEL_DELETE (source `on_channel_delete`): decode and
dispatch. -/
def on_channel_delete (fac : EntityFactory) (payload : Nat) : Option (List Step) :=
  (fac.deserialize_channel_delete_event payload).map
    (fun e => [Step.dispatch (Event.channelDelete e)])

/-- Handler for CHANNEL_PINS_UPDATE (source `on_channel_pins_update`):
decode and dispatch. -/
def on_channel_pins_update (fac : EntityFactory) (payload : Nat) : Option (List Step) :=
  (fac.deserialize_channel_pins_update_event payload).map
    (fun e => [Step.dispatch (Event.channelPinsUpdate e)])

/-- Handler for GUILD_CREATE (source `on_guild_create`): decode, upsert
the guild record, then for channels, emojis, roles, members and
presences a clear followed by a set of every decoded child; voice
states are set WITHOUT a preceding clear (the source issues no
`clear_voice_states` call); finally dispatch. -/
def on_guild_create (fac : EntityFactory) (payload : Nat) : Option (List Step) :=
  match fac.deserialize_guild_create_event payload with
  | none => none
  | some event =>
      some ([Step.cacheOp (CacheOp.updateGuild event.guild),
             Step.cacheOp (CacheOp.clearGuildChannels event.guild.id)]
        ++ event.channels.map (fun c => Step.cacheOp (CacheOp.setGuildChannel c))
        ++ [Step.cacheOp (CacheOp.clearEmojis event.guild.id)]
        ++ event.emojis.map (fun e => Step.cacheOp (CacheOp.setEmoji e))
        ++ [Step.cacheOp (CacheOp.clearRoles event.guild.id)]
        ++ event.roles.map (fun r => Step.cacheOp (CacheOp.setRole r))
        ++ [Step.cacheOp (CacheOp.clearMembers event.guild.id)]
        ++ event.members.map (fun m => Step.cacheOp (CacheOp.setMember m))
        ++ [Step.cacheOp (CacheOp.clearPresences event.guild.id)]
        ++ event.presences.map (fun p => Step.cacheOp (CacheOp.setPresence p))
        ++ event.voice_states.map (fun v => Step.cacheOp (CacheOp.setVoiceState v))
        ++ [Step.dispatch (Event.guildCreate event)])

/-- Handler for GUILD_UPDATE (source `on_guild_update`): decode, upsert
the guild record, clear-and-set roles, clear-and-set emojis, dispatch.
No other collection is touched. -/
def on_guild_update (fac : EntityFactory) (payload : Nat) : Option (List Step) :=
  match fac.deserialize_guild_update_event payload with
  | none => none
  | some event =>
      some ([Step.cacheOp (CacheOp.updateGuild event.guild),
             Step.cacheOp (CacheOp.clearRoles event.guild.id)]
        ++ event.roles.map (fun r => Step.cacheOp (CacheOp.setRole r))
        ++ [Step.cacheOp (CacheOp.clearEmojis event.guild.id)]
        ++ event.emojis.map (fun e => Step.cacheOp (CacheOp.setEmoji e))
        ++ [Step.dispatch (Event.guildUpdate event)])

/-- Handler for GUILD_DELETE (source `on_guild_delete`): branch on the
raw payload's `unavailable` field with default `False`; if truthy,
decode the unavailable event and mark the guild unavailable; otherwise
decode the leave event and delete the guild; then dispatch. -/
def on_guild_delete (fac : EntityFactory) (payload : GuildDeletePayload) : Option (List Step) :=
  if payload.unavailable.getD false then
    match fac.deserialize_guild_unavailable_event payload.rest with
    | none => none
    | some gid =>
        some [Step.cacheOp (CacheOp.setGuildAvailability gid false),
              Step.dispatch (Event.guildUnavailable gid)]
  else
    match fac.deserialize_guild_leave_event payload.rest with
    | none => none
    | some gid =>
        some [Step.cacheOp (CacheOp.deleteGuild gid),
              Step.dispatch (Event.guildLeave gid)]

/-- Handler for GUILD_BAN_ADD (source `on_guild_ban_add`): decode and
dispatch. -/
def on_guild_ban_add (fac : EntityFactory) (payload : Nat) : Option (List Step) :=
  (fac.deserialize_guild_ban_add_event payload).map
    (fun e => [Step.dispatch (Event.guildBanAdd e)])

/-- Handler for GUILD_BAN_REMOVE (source `on_guild_ban_remove`): decode
and dispatch. -/
def on_guild_ban_remove (fac : EntityFactory) (payload : Nat) : Option (List Step) :=
  (fac.deserialize_guild_ban_remove_event payload).map
    (fun e => [Step.dispatch (Event.guildBanRemove e)])

/-- Handler for GUILD_EMOJIS_UPDATE (source `on_guild_emojis_update`):
decode and dispatch. -/
def on_guild_emojis_update (fac : EntityFactory) (payload : Nat) : Option (List Step) :=
  (fac.deserialize_guild_emojis_update_event payload).map
    (fun e => [Step.dispatch (Event.guildEmojisUpdate e)])

/-- Handler for GUILD_INTEGRATIONS_UPDATE (source
`on_guild_integrations_update`): decode and dispatch. -/
def on_guild_integrations_update (fac : EntityFactory) (payload : Nat) : Option (List Step) :=
  (fac.deserialize_guild_integrations_update_event payload).map
    (fun e => [Step.dispatch (Event.guildIntegrationsUpdate e)])

/-- Handler for GUILD_MEMBER_ADD (source `on_guild_member_add`): decode
and dispatch. -/
def on_guild_member_add (fac : EntityFactory) (payload : Nat) : Option (List Step) :=
  (fac.deserialize_guild_member_add_event payload).map
    (fun e => [Step.dispatch (Event.guildMemberAdd e)])

/-- Handler for GUILD_MEMBER_REMOVE (source `on_guild_member_remove`):
decode and dispatch. -/
def on_guild_member_remove (fac : EntityFactory) (payload : Nat) : Option (List Step) :=
  (fac.deserialize_guild_member_remove_event payload).map
    (fun e => [Step.dispatch (Event.guildMemberRemove e)])

/-- Handler for GUILD_MEMBER_UPDATE (source `on_guild_member_update`):
decode and dispatch. -/
def on_guild_member_update (fac : EntityFactory) (payload : Nat) : Option (List Step) :=
  (fac.deserialize_guild_member_update_event payload).map
    (fun e => [Step.dispatch (Event.guildMemberUpdate e)])

/-- Handler for GUILD_MEMBERS_CHUNK (source `on_guild_members_chunk`):
the body is entirely commented out, so no decoder is invoked, no cache
operation is issued and no event is dispatched. -/
def on_guild_members_chunk : Option (List Step) :=
  some []

/-- Handler for GUILD_ROLE_CREATE (source `on_guild_role_create`):
decode and dispatch. -/
def on_guild_role_create (fac : EntityFactory) (payload : Nat) : Option (List Step) :=
  (fac.deserialize_guild_role_create_event payload).map
    (fun e => [Step.dispatch (Event.guildRoleCreate e)])

/-- Handler for GUILD_ROLE_UPDATE (source `on_guild_role_update`):
decode and dispatch. -/
def on_guild_role_update (fac : EntityFactory) (payload : Nat) : Option (List Step) :=
  (fac.deserialize_guild_role_update_event payload).map
    (fun e => [Step.dispatch (Event.guildRoleUpdate e)])

/-- Handler for GUILD_ROLE_DELETE (source `on_guild_role_delete`):
decode and dispatch. -/
def on_guild_role_delete (fac : EntityFactory) (payload : Nat) : Option (List Step) :=
  (fac.deserialize_guild_role_delete_event payload).map
    (fun e => [Step.dispatch (Event.guildRoleDelete e)])

/-- Handler for INVITE_CREATE (source `on_invite_create`): decode and
dispatch. -/
def on_invite_create (fac : EntityFactory) (payload : Nat) : Option (List Step) :=
  (fac.deserialize_invite_create_event payload).map
    (fun e => [Step.dispatch (Event.inviteCreate e)])

/-- Handler for INVITE_DELETE (source `on_invite_delete`): decode and
dispatch. -/
def on_invite_delete (fac : EntityFactory) (payload : Nat) : Option (List Step) :=
  (fac.deserialize_invite_delete_event payload).map
    (fun e => [Step.dispatch (Event.inviteDelete e)])

/-- Handler for MESSAGE_CREATE (source `on_message_create`): decode and
dispatch. -/
def on_message_create (fac : EntityFactory) (payload : Nat) : Option (List Step) :=
  (fac.deserialize_message_create_event payload).map
    (fun e => [Step.dispatch (Event.messageCreate e)])

/-- Handler for MESSAGE_UPDATE (source `on_message_update`): decode and
dispatch. -/
def on_message_update (fac : EntityFactory) (payload : Nat) : Option (List Step) :=
  (fac.deserialize_message_update_event payload).map
    (fun e => [Step.dispatch (Event.messageUpdate e)])

/-- Handler for MESSAGE_DELETE (source `on_message_delete`): decode and
dispatch. -/
def on_message_delete (fac : EntityFactory) (payload : Nat) : Option (List Step) :=
  (fac.deserialize_message_delete_event payload).map
    (fun e => [Step.dispatch (Event.messageDelete e)])

/-- Handler for MESSAGE_DELETE_BULK (source `on_message_delete_bulk`):
decode and dispatch. -/
def on_message_delete_bulk (fac : EntityFactory) (payload : Nat) : Option (List Step) :=
  (fac.deserialize_message_delete_bulk_event payload).map
    (fun e => [Step.dispatch (Event.messageDeleteBulk e)])

/-- Handler for MESSAGE_REACTION_ADD (source `on_message_reaction_add`):
decode and dispatch. -/
def on_message_reaction_add (fac : EntityFactory) (payload : Nat) : Option (List Step) :=
  (fac.deserialize_message_reaction_add_event payload).map
    (fun e => [Step.dispatch (Event.messageReactionAdd e)])

/-- Handler for MESSAGE_REACTION_REMOVE (source
`on_message_reaction_remove`): decode and dispatch. -/
def on_message_reaction_remove (fac : EntityFactory) (payload : Nat) : Option (List Step) :=
  (fac.deserialize_message_reaction_remove_event payload).map
    (fun e => [Step.dispatch (Event.messageReactionRemove e)])

/-- Handler for MESSAGE_REACTION_REMOVE_ALL (source
`on_message_reaction_remove_all`): decode and dispatch. -/
def on_message_reaction_remove_all (fac : EntityFactory) (payload : Nat) : Option (List Step) :=
  (fac.deserialize_message_reaction_remove_all_event payload).map
    (fun e => [Step.dispatch (Event.messageReactionRemoveAll e)])

/-- Handler for MESSAGE_REACTION_REMOVE_EMOJI (source
`on_message_reaction_remove_emoji`): decode and dispatch. -/
def on_message_reaction_remove_emoji (fac : EntityFactory) (payload : Nat) : Option (List Step) :=
  (fac.deserialize_message_reaction_remove_emoji_event payload).map
    (fun e => [Step.dispatch (Event.messageReactionRemoveEmoji e)])

/-- Handler for PRESENCE_UPDATE (source `on_presence_update`): decode
and dispatch. -/
def on_presence_update (fac : EntityFactory) (payload : Nat) : Option (List Step) :=
  (fac.deserialize_presence_update_event payload).map
    (fun e => [Step.dispatch (Event.presenceUpdate e)])

/-- Handler for TYPING_START (source `on_typing_start`): decode and
dispatch. -/
def on_typing_start (fac : EntityFactory) (payload : Nat) : Option (List Step) :=
  (fac.deserialize_typing_start_event payload).map
    (fun e => [Step.dispatch (Event.typingStart e)])

/-- Handler for USER_UPDATE (source `on_user_update`): decode and
dispatch. -/
def on_user_update (fac : EntityFactory) (payload : Nat) : Option (List Step) :=
  (fac.deserialize_own_user_update_event payload).map
    (fun e => [Step.dispatch (Event.userUpdate e)])

/-- Handler for VOICE_STATE_UPDATE (source `on_voice_state_update`):
decode and dispatch. -/
def on_voice_state_update (fac : EntityFactory) (payload : Nat) : Option (List Step) :=
  (fac.deserialize_voice_state_update_event payload).map
    (fun e => [Step.dispatch (Event.voiceStateUpdate e)])

/-- Handler for VOICE_SERVER_UPDATE (source `on_voice_server_update`):
decode and dispatch. -/
def on_voice_server_update (fac : EntityFactory) (payload : Nat) : Option (List Step) :=
  (fac.deserialize_voice_server_update_event payload).map
    (fun e => [Step.dispatch (Event.voiceServerUpdate e)])

/-- Handler for WEBHOOKS_UPDATE (source `on_webhooks_update`): decode
and dispatch. -/
def on_webhooks_update (fac : EntityFactory) (payload : Nat) : Option (List Step) :=
  (fac.deserialize_webhook_update_event payload).map
    (fun e => [Step.dispatch (Event.webhooksUpdate e)])

/-- A raw gateway payload tagged with its event kind. -/
inductive Payload where
  | connected
  | disconnected
  | ready (p : Nat)
  | resumed
  | channelCreate (p : Nat)
  | channelUpdate (p : Nat)
  | channelDelete (p : Nat)
  | channelPinsUpdate (p : Nat)
  | guildCreate (p : Nat)
  | guildUpdate (p : Nat)
  | guildDelete (p : GuildDeletePayload)
  | guildBanAdd (p : Nat)
  | guildBanRemove (p : Nat)
  | guildEmojisUpdate (p : Nat)
  | guildIntegrationsUpdate (p : Nat)
  | guildMemberAdd (p : Nat)
  | guildMemberRemove (p : Nat)
  | guildMemberUpdate (p : Nat)
  | guildMembersChunk (p : Nat)
  | guildRoleCreate (p : Nat)
  | guildRoleUpdate (p : Nat)
  | guildRoleDelete (p : Nat)
  | inviteCreate (p : Nat)
  | inviteDelete (p : Nat)
  | messageCreate (p : Nat)
  | messageUpdate (p : Nat)
  | messageDelete (p : Nat)
  | messageDeleteBulk (p : Nat)
  | messageReactionAdd (p : Nat)
  | messageReactionRemove (p : Nat)
  | messageReactionRemoveAll (p : Nat)
  | messageReactionRemoveEmoji (p : Nat)
  | presenceUpdate (p : Nat)
  | typingStart (p : Nat)
  | userUpdate (p : Nat)
  | voiceStateUpdate (p : Nat)
  | voiceServerUpdate (p : Nat)
  | webhooksUpdate (p : Nat)
deriving DecidableEq, Repr

/-- The synchronization dispatcher: select the handler by event kind and
run it, yielding its trace of actions (`none` when the decoder fails). -/
def handle (fac : EntityFactory) : Payload → Option (List Step)
  | .connected => on_connected
  | .disconnected => on_disconnected
  | .ready p => on_ready fac p
  | .resumed => on_resumed
  | .channelCreate p => on_channel_create fac p
  | .channelUpdate p => on_channel_update fac p
  | .channelDelete p => on_channel_delete fac p
  | .channelPinsUpdate p => on_channel_pins_update fac p
  | .guildCreate p => on_guild_create fac p
  | .guildUpdate p => on_guild_update fac p
  | .guildDelete p => on_guild_delete fac p
  | .guildBanAdd p => on_guild_ban_add fac p
  | .guildBanRemove p => on_guild_ban_remove fac p
  | .guildEmojisUpdate p => on_guild_emojis_update fac p
  | .guildIntegrationsUpdate p => on_guild_integrations_update fac p
  | .guildMemberAdd p => on_guild_member_add fac p
  | .guildMemberRemove p => on_guild_member_remove fac p
  | .guildMemberUpdate p => on_guild_member_update fac p
  | .guildMembersChunk _ => on_guild_members_chunk
  | .guildRoleCreate p => on_guild_role_create fac p
  | .guildRoleUpdate p => on_guild_role_update fac p
  | .guildRoleDelete p => on_guild_role_delete fac p
  | .inviteCreate p => on_invite_create fac p
  | .inviteDelete p => on_invite_delete fac p
  | .messageCreate p => on_message_create fac p
  | .messageUpdate p => on_message_update fac p
  | .messageDelete p => on_message_delete fac p
  | .messageDeleteBulk p => on_message_delete_bulk fac p
  | .messageReactionAdd p => on_message_reaction_add fac p
  | .messageReactionRemove p => on_message_reaction_remove fac p
  | .messageReactionRemoveAll p => on_message_reaction_remove_all fac p
  | .messageReactionRemoveEmoji p => on_message_reaction_remove_emoji fac p
  | .presenceUpdate p => on_presence_update fac p
  | .typingStart p => on_typing_start fac p
  | .userUpdate p => on_user_update fac p
  | .voiceStateUpdate p => on_voice_state_update fac p
  | .voiceServerUpdate p => on_voice_server_update fac p
  | .webhooksUpdate p => on_webhooks_update fac p

/-- Process one payload against the mirror: on decode failure the mirror
is untouched and nothing is dispatched; otherwise the handler's trace is
applied and its events are handed to the sink. -/
def processOne (fac : EntityFactory) (p : Payload) (s : CacheState) :
    CacheState × List Event :=
  match handle fac p with
  | none => (s, [])
  | some tr => (applySteps tr s, dispatchedEvents tr)

/-- Process a stream of payloads in delivery order; a payload whose
decode fails is dropped and the stream continues (spec, section 7). -/
def processAll (fac : EntityFactory) : List Payload → CacheState → CacheState × List Event
  | [], s => (s, [])
  | p :: ps, s =>
      match handle fac p with
      | none => processAll fac ps s
      | some tr =>
          let rec2 := processAll fac ps (applySteps tr s)
          (rec2.1, dispatchedEvents tr ++ rec2.2)

/-- The decoder invocation for this payload fails (per kind, the
deserializer the handler would call returns `none`; kinds that invoke no
decoder never fail). -/
def decodeFails (fac : EntityFactory) : Payload → Bool
  | .connected => false
  | .disconnected => false
  | .ready p => (fac.deserialize_ready_event p).isNone
  | .resumed => false
  | .channelCreate p => (fac.deserialize_channel_create_event p).isNone
  | .channelUpdate p => (fac.deserialize_channel_update_event p).isNone
  | .channelDelete p => (fac.deserialize_channel_delete_event p).isNone
  | .channelPinsUpdate p => (fac.deserialize_channel_pins_update_event p).isNone
  | .guildCreate p => (fac.deserialize_guild_create_event p).isNone
  | .guildUpdate p => (fac.deserialize_guild_update_event p).isNone
  | .guildDelete p =>
      if p.unavailable.getD false then (fac.deserialize_guild_unavailable_event p.rest).isNone
      else (fac.deserialize_guild_leave_event p.rest).isNone
  | .guildBanAdd p => (fac.deserialize_guild_ban_add_event p).isNone
  | .guildBanRemove p => (fac.deserialize_guild_ban_remove_event p).isNone
  | .guildEmojisUpdate p => (fac.deserialize_guild_emojis_update_event p).isNone
  | .guildIntegrationsUpdate p => (fac.deserialize_guild_integrations_update_event p).isNone
  | .guildMemberAdd p => (fac.deserialize_guild_member_add_event p).isNone
  | .guildMemberRemove p => (fac.deserialize_guild_member_remove_event p).isNone
  | .guildMemberUpdate p => (fac.deserialize_guild_member_update_event p).isNone
  | .guildMembersChunk _ => false
  | .guildRoleCreate p => (fac.deserialize_guild_role_create_event p).isNone
  | .guildRoleUpdate p => (fac.deserialize_guild_role_update_event p).isNone
  | .guildRoleDelete p => (fac.deserialize_guild_role_delete_event p).isNone
  | .inviteCreate p => (fac.deserialize_invite_create_event p).isNone
  | .inviteDelete p => (fac.deserialize_invite_delete_event p).isNone
  | .messageCreate p => (fac.deserialize_message_create_event p).isNone
  | .messageUpdate p => (fac.deserialize_message_update_event p).isNone
  | .messageDelete p => (fac.deserialize_message_delete_event p).isNone
  | .messageDeleteBulk p => (fac.deserialize_message_delete_bulk_event p).isNone
  | .messageReactionAdd p => (fac.deserialize_message_reaction_add_event p).isNone
  | .messageReactionRemove p => (fac.deserialize_message_reaction_remove_event p).isNone
  | .messageReactionRemoveAll p => (fac.deserialize_message_reaction_remove_all_event p).isNone
  | .messageReactionRemoveEmoji p => (fac.deserialize_message_reaction_remove_emoji_event p).isNone
  | .presenceUpdate p => (fac.deserialize_presence_update_event p).isNone
  | .typingStart p => (fac.deserialize_typing_start_event p).isNone
  | .userUpdate p => (fac.deserialize_own_user_update_event p).isNone
  | .voiceStateUpdate p => (fac.deserialize_voice_state_update_event p).isNone
  | .voiceServerUpdate p => (fac.deserialize_voice_server_update_event p).isNone
  | .webhooksUpdate p => (fac.deserialize_webhook_update_event p).isNone

/-- The per-child delta kinds: every kind whose handler is a plain
decode-then-dispatch forwarder (everything except the synthetic
connected/disconnected/resumed kinds, the four mirror-mutating kinds
ready/guild-create/guild-update/guild-delete, and the unhandled
member-chunk kind). -/
def isDelta : Payload → Bool
  | .connected => false
  | .disconnected => false
  | .ready _ => false
  | .resumed => false
  | .guildCreate _ => false
  | .guildUpdate _ => false
  | .guildDelete _ => false
  | .guildMembersChunk _ => false
  | _ => true

/-- A trace in which every cache operation precedes every dispatch. -/
def cacheThenDispatch (tr : List Step) : Prop :=
  ∃ (ops : List CacheOp) (evs : List Event),
    tr = ops.map Step.cacheOp ++ evs.map Step.dispatch

theorem applySteps_append (a b : List Step) (s : CacheState) :
    applySteps (a ++ b) s = applySteps b (applySteps a s) := by
  induction a generalizing s with
  | nil => rfl
  | cons x xs ih =>
      cases x with
      | cacheOp op => simp [applySteps, ih]
      | dispatch e => simp [applySteps, ih]

theorem dispatchedEvents_append (a b : List Step) :
    dispatchedEvents (a ++ b) = dispatchedEvents a ++ dispatchedEvents b := by
  simp [dispatchedEvents]

theorem dispatchedEvents_cacheOps {α : Type} (f : α → CacheOp) (xs : List α) :
    dispatchedEvents (xs.map (fun x => Step.cacheOp (f x))) = [] := by
  simp [dispatchedEvents, List.filterMap_map]

theorem applySteps_setChannels (cs : List GuildChannel) (s : CacheState) :
    applySteps (cs.map (fun c => Step.cacheOp (CacheOp.setGuildChannel c))) s
      = { s with channels := cs.foldl (setKeyed channelKey) s.channels } := by
  induction cs generalizing s with
  | nil => rfl
  | cons c cs ih => simp [applySteps, applyOp, ih]

theorem applySteps_setEmojis (es : List Emoji) (s : CacheState) :
    applySteps (es.map (fun e => Step.cacheOp (CacheOp.setEmoji e))) s
      = { s with emojis := es.foldl (setKeyed emojiKey) s.emojis } := by
  induction es generalizing s with
  | nil => rfl
  | cons e es ih => simp [applySteps, applyOp, ih]

theorem applySteps_setRoles (rs : List Role) (s : CacheState) :
    applySteps (rs.map (fun r => Step.cacheOp (CacheOp.setRole r))) s
      = { s with roles := rs.foldl (setKeyed roleKey) s.roles } := by
  induction rs generalizing s with
  | nil => rfl
  | cons r rs ih => simp [applySteps, applyOp, ih]

theorem applySteps_setMembers (ms : List Member) (s : CacheState) :
    applySteps (ms.map (fun m => Step.cacheOp (CacheOp.setMember m))) s
      = { s with members := ms.foldl (setKeyed memberKey) s.members } := by
  induction ms generalizing s with
  | nil => rfl
  | cons m ms ih => simp [applySteps, applyOp, ih]

theorem applySteps_setPresences (ps : List Presence) (s : CacheState) :
    applySteps (ps.map (fun p => Step.cacheOp (CacheOp.setPresence p))) s
      = { s with presences := ps.foldl (setKeyed presenceKey) s.presences } := by
  induction ps generalizing s with
  | nil => rfl
  | cons p ps ih => simp [applySteps, applyOp, ih]

theorem applySteps_setVoiceStates (vs : List VoiceState) (s : CacheState) :
    applySteps (vs.map (fun v => Step.cacheOp (CacheOp.setVoiceState v))) s
      = { s with voice_states := vs.foldl (setKeyed voiceStateKey) s.voice_states } := by
  induction vs generalizing s with
  | nil => rfl
  | cons v vs ih => simp [applySteps, applyOp, ih]

theorem foldl_setKeyed_fresh {α : Type} (key : α → Nat × Nat) (xs l : List α)
    (hfresh : ∀ x ∈ xs, ∀ y ∈ l, key y ≠ key x)
    (hnodup : xs.Pairwise (fun a b => key a ≠ key b)) :
    xs.foldl (setKeyed key) l = l ++ xs := by
  induction xs generalizing l with
  | nil => simp
  | cons x xs ih =>
      have h1 : l.filter (fun y => !(key y == key x)) = l := by
        apply List.filter_eq_self.mpr
        intro y hy
        simp [hfresh x (List.mem_cons_self x xs) y hy]
      have h2 : xs.foldl (setKeyed key) (l ++ [x]) = (l ++ [x]) ++ xs := by
        apply ih
        · intro z hz y hy
          rcases List.mem_append.mp hy with hy | hy
          · exact hfresh z (List.mem_cons_of_mem x hz) y hy
          · have hx : y = x := by simpa using hy
            subst hx
            exact (List.pairwise_cons.mp hnodup).1 z hz
        · exact (List.pairwise_cons.mp hnodup).2
      calc (x :: xs).foldl (setKeyed key) l
          = xs.foldl (setKeyed key) (setKeyed key l x) := by rfl
        _ = xs.foldl (setKeyed key) (l ++ [x]) := by rw [setKeyed, h1]
        _ = (l ++ [x]) ++ xs := h2
        _ = l ++ x :: xs := by simp

theorem applySteps_nil (s : CacheState) : applySteps [] s = s := rfl

theorem applySteps_cons_cacheOp (op : CacheOp) (tr : List Step) (s : CacheState) :
    applySteps (Step.cacheOp op :: tr) s = applySteps tr (applyOp op s) := rfl

theorem applySteps_cons_dispatch (e : Event) (tr : List Step) (s : CacheState) :
    applySteps (Step.dispatch e :: tr) s = applySteps tr s := rfl

theorem dispatchedEvents_nil : dispatchedEvents [] = [] := rfl

theorem dispatchedEvents_cons_cacheOp (op : CacheOp) (tr : List Step) :
    dispatchedEvents (Step.cacheOp op :: tr) = dispatchedEvents tr := rfl

theorem dispatchedEvents_cons_dispatch (e : Event) (tr : List Step) :
    dispatchedEvents (Step.dispatch e :: tr) = e :: dispatchedEvents tr := rfl

theorem on_guild_create_run (fac : EntityFactory) (payload : Nat) (s : CacheState)
    (event : GuildCreateEvent)
    (hdec : fac.deserialize_guild_create_event payload = some event) :
    processOne fac (Payload.guildCreate payload) s =
      ({ s with
         guilds := s.guilds.filter (fun x => !(x.id == event.guild.id)) ++ [event.guild]
         availability := s.availability.filter (fun a => !(a.1 == event.guild.id))
           ++ [(event.guild.id, true)]
         channels := event.channels.foldl (setKeyed channelKey)
           (s.channels.filter (fun c => !(c.guild_id == event.guild.id)))
         emojis := event.emojis.foldl (setKeyed emojiKey)
           (s.emojis.filter (fun e => !(e.guild_id == event.guild.id)))
         roles := event.roles.foldl (setKeyed roleKey)
           (s.roles.filter (fun r => !(r.guild_id == event.guild.id)))
         members := event.members.foldl (setKeyed memberKey)
           (s.members.filter (fun m => !(m.guild_id == event.guild.id)))
         presences := event.presences.foldl (setKeyed presenceKey)
           (s.presences.filter (fun p => !(p.guild_id == event.guild.id)))
         voice_states := event.voice_states.foldl (setKeyed voiceStateKey) s.voice_states },
       [Event.guildCreate event]) := by
  have htr : handle fac (Payload.guildCreate payload) = some
      (Step.cacheOp (CacheOp.updateGuild event.guild) ::
        Step.cacheOp (CacheOp.clearGuildChannels event.guild.id) ::
        (event.channels.map (fun c => Step.cacheOp (CacheOp.setGuildChannel c))
          ++ (Step.cacheOp (CacheOp.clearEmojis event.guild.id) ::
          (event.emojis.map (fun e => Step.cacheOp (CacheOp.setEmoji e))
          ++ (Step.cacheOp (CacheOp.clearRoles event.guild.id) ::
          (event.roles.map (fun r => Step.cacheOp (CacheOp.setRole r))
          ++ (Step.cacheOp (CacheOp.clearMembers event.guild.id) ::
          (event.members.map (fun m => Step.cacheOp (CacheOp.setMember m))
          ++ (Step.cacheOp (CacheOp.clearPresences event.guild.id) ::
          (event.presences.map (fun p => Step.cacheOp (CacheOp.setPresence p))
          ++ (event.voice_states.map (fun v => Step.cacheOp (CacheOp.setVoiceState v))
          ++ [Step.dispatch (Event.guildCreate event)]))))))))))) := by
    simp [handle, on_guild_create, hdec, List.append_assoc]
  simp only [processOne, htr]
  simp only [applySteps_cons_cacheOp, applySteps_cons_dispatch, applySteps_nil,
    applySteps_append, applySteps_setChannels, applySteps_setEmojis, applySteps_setRoles,
    applySteps_setMembers, applySteps_setPresences, applySteps_setVoiceStates, applyOp,
    dispatchedEvents_cons_cacheOp, dispatchedEvents_cons_dispatch, dispatchedEvents_nil,
    dispatchedEvents_append, dispatchedEvents_cacheOps, List.nil_append, List.append_nil]

theorem on_guild_update_run (fac : EntityFactory) (payload : Nat) (s : CacheState)
    (event : GuildUpdateEvent)
    (hdec : fac.deserialize_guild_update_event payload = some event) :
    processOne fac (Payload.guildUpdate payload) s =
      ({ s with
         guilds := s.guilds.filter (fun x => !(x.id == event.guild.id)) ++ [event.guild]
         availability := s.availability.filter (fun a => !(a.1 == event.guild.id))
           ++ [(event.guild.id, true)]
         roles := event.roles.foldl (setKeyed roleKey)
           (s.roles.filter (fun r => !(r.guild_id == event.guild.id)))
         emojis := event.emojis.foldl (setKeyed emojiKey)
           (s.emojis.filter (fun e => !(e.guild_id == event.guild.id))) },
       [Event.guildUpdate event]) := by
  have htr : handle fac (Payload.guildUpdate payload) = some
      (Step.cacheOp (CacheOp.updateGuild event.guild) ::
        Step.cacheOp (CacheOp.clearRoles event.guild.id) ::
        (event.roles.map (fun r => Step.cacheOp (CacheOp.setRole r))
          ++ (Step.cacheOp (CacheOp.clearEmojis event.guild.id) ::
          (event.emojis.map (fun e => Step.cacheOp (CacheOp.setEmoji e))
          ++ [Step.dispatch (Event.guildUpdate event)])))) := by
    simp [handle, on_guild_update, hdec, List.append_assoc]
  simp only [processOne, htr]
  simp only [applySteps_cons_cacheOp, applySteps_cons_dispatch, applySteps_nil,
    applySteps_append, applySteps_setRoles, applySteps_setEmojis, applyOp,
    dispatchedEvents_cons_cacheOp, dispatchedEvents_cons_dispatch, dispatchedEvents_nil,
    dispatchedEvents_append, dispatchedEvents_cacheOps, List.nil_append, List.append_nil]

/-- A decoder that fails on every payload of every kind. -/
def noDecode : EntityFactory where
  deserialize_ready_event := fun _ => none
  deserialize_channel_create_event := fun _ => none
  deserialize_channel_update_event := fun _ => none
  deserialize_channel_delete_event := fun _ => none
  deserialize_channel_pins_update_event := fun _ => none
  deserialize_guild_create_event := fun _ => none
  deserialize_guild_update_event := fun _ => none
  deserialize_guild_unavailable_event := fun _ => none
  deserialize_guild_leave_event := fun _ => none
  deserialize_guild_ban_add_event := fun _ => none
  deserialize_guild_ban_remove_event := fun _ => none
  deserialize_guild_emojis_update_event := fun _ => none
  deserialize_guild_integrations_update_event := fun _ => none
  deserialize_guild_member_add_event := fun _ => none
  deserialize_guild_member_remove_event := fun _ => none
  deserialize_guild_member_update_event := fun _ => none
  deserialize_guild_role_create_event := fun _ => none
  deserialize_guild_role_update_event := fun _ => none
  deserialize_guild_role_delete_event := fun _ => none
  deserialize_invite_create_event := fun _ => none
  deserialize_invite_delete_event := fun _ => none
  deserialize_message_create_event := fun _ => none
  deserialize_message_update_event := fun _ => none
  deserialize_message_delete_event := fun _ => none
  deserialize_message_delete_bulk_event := fun _ => none
  deserialize_message_reaction_add_event := fun _ => none
  deserialize_message_reaction_remove_event := fun _ => none
  deserialize_message_reaction_remove_all_event := fun _ => none
  deserialize_message_reaction_remove_emoji_event := fun _ => none
  deserialize_presence_update_event := fun _ => none
  deserialize_typing_start_event := fun _ => none
  deserialize_own_user_update_event := fun _ => none
  deserialize_voice_state_update_event := fun _ => none
  deserialize_voice_server_update_event := fun _ => none
  deserialize_webhook_update_event := fun _ => none

/-- The first snapshot of guild 1: one channel and one voice state. -/
def gcFirst : GuildCreateEvent :=
  ⟨⟨1, 0⟩, [⟨1, 7, 0⟩], [], [], [], [], [⟨1, 10, 0⟩]⟩

/-- The second snapshot of guild 1: no children at all. -/
def gcSecond : GuildCreateEvent :=
  ⟨⟨1, 1⟩, [], [], [], [], [], []⟩

/-- A decoder yielding `gcFirst` for payload 0 and `gcSecond` otherwise. -/
def facTwoSnapshots : EntityFactory :=
  { noDecode with
    deserialize_guild_create_event := fun p => if p == 0 then some gcFirst else some gcSecond }

/-- Claim C1: a GUILD_CREATE snapshot is claimed to replace each of the
six child collections wholesale (a clear of each kind before its sets),
so that after two successive snapshots for guild 1 the mirror holds
exactly the second snapshot's children.  The code omits the clear for
voice states: after processing the two snapshots, the voice state of the
first snapshot survives although the second snapshot has no voice
states, while the channel of the first snapshot is correctly gone. -/
theorem guild_create_stale_voice_state_survives :
    (processAll facTwoSnapshots [Payload.guildCreate 0, Payload.guildCreate 1] emptyCache).1.voice_states
        = [⟨1, 10, 0⟩] ∧
    gcSecond.voice_states = [] ∧
    (processAll facTwoSnapshots [Payload.guildCreate 0, Payload.guildCreate 1] emptyCache).1.channels
        = [] ∧
    gcFirst.channels = [⟨1, 7, 0⟩] := by
  decide

/-- Claim C9: the GUILD_MEMBERS_CHUNK handler performs no action: its
trace is empty, the mirror is unchanged and nothing is dispatched (no
deserializer for this kind even exists in the factory interface). -/
theorem guild_members_chunk_is_noop (fac : EntityFactory) (p : Nat) (s : CacheState) :
    handle fac (Payload.guildMembersChunk p) = some [] ∧
    processOne fac (Payload.guildMembersChunk p) s = (s, []) := by
  exact ⟨rfl, rfl⟩

/-- A decoder yielding channel (1, 7) for every CHANNEL_CREATE payload. -/
def facChannelCreate : EntityFactory :=
  { noDecode with deserialize_channel_create_event := fun _ => some ⟨1, 7, 0⟩ }

/-- Claim C4, counterexample: the claim says a per-child create applies
a mirror `set` under the parent identity before dispatching; on the
code, a CHANNEL_CREATE whose decode succeeds dispatches the event but
leaves the mirror unchanged — the decoded channel is not in the mirror
afterwards. -/
theorem channel_create_no_mirror_set :
    facChannelCreate.deserialize_channel_create_event 0 = some ⟨1, 7, 0⟩ ∧
    processOne facChannelCreate (Payload.channelCreate 0) emptyCache
        = (emptyCache, [Event.channelCreate ⟨1, 7, 0⟩]) ∧
    (⟨1, 7, 0⟩ : GuildChannel) ∉
      (processOne facChannelCreate (Payload.channelCreate 0) emptyCache).1.channels := by
  refine ⟨rfl, rfl, ?_⟩
  decide

/-- Claim C4, amended: for every per-child delta payload (channel,
role, member, presence, voice-state create/update/delete and the other
delta kinds), the handler decodes the payload and dispatches the
corresponding event, applying NO mirror primitive: its trace is a
single dispatch, the mirror is unchanged and exactly the decoded event
is dispatched. -/
theorem delta_handlers_decode_and_dispatch_only (fac : EntityFactory) (p : Payload)
    (tr : List Step) (s : CacheState)
    (hp : isDelta p = true) (h : handle fac p = some tr) :
    ∃ e, tr = [Step.dispatch e] ∧ applySteps tr s = s ∧ dispatchedEvents tr = [e] := by
  cases p <;>
    simp [isDelta] at hp <;>
    simp only [handle, on_channel_create, on_channel_update, on_channel_delete,
      on_channel_pins_update, on_guild_ban_add, on_guild_ban_remove, on_guild_emojis_update,
      on_guild_integrations_update, on_guild_member_add, on_guild_member_remove,
      on_guild_member_update, on_guild_role_create, on_guild_role_update, on_guild_role_delete,
      on_invite_create, on_invite_delete, on_message_create, on_message_update,
      on_message_delete, on_message_delete_bulk, on_message_reaction_add,
      on_message_reaction_remove, on_message_reaction_remove_all,
      on_message_reaction_remove_emoji, on_presence_update, on_typing_start, on_user_update,
      on_voice_state_update, on_voice_server_update, on_webhooks_update,
      Option.map_eq_some'] at h <;>
    obtain ⟨e, he, htr⟩ := h <;>
    subst htr <;>
    exact ⟨_, rfl, rfl, rfl⟩

/-- Witness for C4's amended theorem at a concrete channel-create. -/
theorem delta_handlers_decode_and_dispatch_only_witness :
    ∃ e, [Step.dispatch (Event.channelCreate ⟨1, 7, 0⟩)] = [Step.dispatch e] ∧
      applySteps [Step.dispatch (Event.channelCreate ⟨1, 7, 0⟩)] emptyCache = emptyCache ∧
      dispatchedEvents [Step.dispatch (Event.channelCreate ⟨1, 7, 0⟩)] = [e] :=
  delta_handlers_decode_and_dispatch_only facChannelCreate (Payload.channelCreate 0)
    [Step.dispatch (Event.channelCreate ⟨1, 7, 0⟩)] emptyCache rfl rfl

/-- Claim C7: the READY handler decodes, sets the self-user from the
decoded own user, replaces the unavailable-guild set with the decoded
guild identities, and then dispatches the ready event, in that order;
no other mirror state is touched. -/
theorem ready_recipe (fac : EntityFactory) (payload : Nat) (s : CacheState)
    (event : ReadyEvent)
    (hdec : fac.deserialize_ready_event payload = some event) :
    handle fac (Payload.ready payload) = some
      [Step.cacheOp (CacheOp.updateMe event.my_user),
       Step.cacheOp (CacheOp.setInitialUnavailableGuilds event.unavailable_guilds),
       Step.dispatch (Event.ready event)] ∧
    (processOne fac (Payload.ready payload) s).1 =
      { s with me := some event.my_user, unavailable_guilds := event.unavailable_guilds } ∧
    (processOne fac (Payload.ready payload) s).2 = [Event.ready event] := by
  have htr : handle fac (Payload.ready payload) = some
      [Step.cacheOp (CacheOp.updateMe event.my_user),
       Step.cacheOp (CacheOp.setInitialUnavailableGuilds event.unavailable_guilds),
       Step.dispatch (Event.ready event)] := by
    simp [handle, on_ready, hdec]
  refine ⟨htr, ?_, ?_⟩ <;>
    simp only [processOne, htr, applySteps_cons_cacheOp, applySteps_cons_dispatch,
      applySteps_nil, applyOp, dispatchedEvents_cons_cacheOp, dispatchedEvents_cons_dispatch,
      dispatchedEvents_nil]

/-- A decoder for READY yielding user 2 and unavailable guilds 1 and 4. -/
def facReady : EntityFactory :=
  { noDecode with deserialize_ready_event := fun _ => some ⟨⟨2, 0⟩, [1, 4]⟩ }

/-- Witness for C7 at a concrete READY payload. -/
theorem ready_recipe_witness :
    handle facReady (Payload.ready 0) = some
      [Step.cacheOp (CacheOp.updateMe ⟨2, 0⟩),
       Step.cacheOp (CacheOp.setInitialUnavailableGuilds [1, 4]),
       Step.dispatch (Event.ready ⟨⟨2, 0⟩, [1, 4]⟩)] ∧
    (processOne facReady (Payload.ready 0) emptyCache).1 =
      { emptyCache with me := some ⟨2, 0⟩, unavailable_guilds := [1, 4] } ∧
    (processOne facReady (Payload.ready 0) emptyCache).2 = [Event.ready ⟨⟨2, 0⟩, [1, 4]⟩] :=
  ready_recipe facReady 0 emptyCache ⟨⟨2, 0⟩, [1, 4]⟩ rfl

/-- Claim C3: GUILD_DELETE takes exactly one of two mutually exclusive
branches on the payload's `unavailable` flag.  If the flag is truthy,
the only mirror mutation is marking the guild unavailable
(`set_guild_availability` with `false`); every child collection, the
guild record and all other state are retained, and a GuildUnavailable
event is dispatched.  If the flag is falsy, the guild is deleted with a
cascading clear of every child kind and a GuildLeave event is
dispatched. -/
theorem guild_delete_branches (fac : EntityFactory) (p : GuildDeletePayload) (s : CacheState) :
    (p.unavailable.getD false = true →
      ∀ gid, fac.deserialize_guild_unavailable_event p.rest = some gid →
        handle fac (Payload.guildDelete p) = some
          [Step.cacheOp (CacheOp.setGuildAvailability gid false),
           Step.dispatch (Event.guildUnavailable gid)] ∧
        (processOne fac (Payload.guildDelete p) s).1 =
          { s with availability := s.availability.filter (fun a => !(a.1 == gid)) ++ [(gid, false)] } ∧
        (processOne fac (Payload.guildDelete p) s).2 = [Event.guildUnavailable gid]) ∧
    (p.unavailable.getD false = false →
      ∀ gid, fac.deserialize_guild_leave_event p.rest = some gid →
        handle fac (Payload.guildDelete p) = some
          [Step.cacheOp (CacheOp.deleteGuild gid),
           Step.dispatch (Event.guildLeave gid)] ∧
        (processOne fac (Payload.guildDelete p) s).1 =
          { s with
            guilds := s.guilds.filter (fun x => !(x.id == gid))
            availability := s.availability.filter (fun a => !(a.1 == gid))
            channels := s.channels.filter (fun c => !(c.guild_id == gid))
            emojis := s.emojis.filter (fun e => !(e.guild_id == gid))
            roles := s.roles.filter (fun r => !(r.guild_id == gid))
            members := s.members.filter (fun m => !(m.guild_id == gid))
            presences := s.presences.filter (fun q => !(q.guild_id == gid))
            voice_states := s.voice_states.filter (fun v => !(v.guild_id == gid)) } ∧
        (processOne fac (Payload.guildDelete p) s).2 = [Event.guildLeave gid]) := by
  constructor
  · intro hflag gid hdec
    have htr : handle fac (Payload.guildDelete p) = some
        [Step.cacheOp (CacheOp.setGuildAvailability gid false),
         Step.dispatch (Event.guildUnavailable gid)] := by
      simp [handle, on_guild_delete, hflag, hdec]
    refine ⟨htr, ?_, ?_⟩ <;>
      simp only [processOne, htr, applySteps_cons_cacheOp, applySteps_cons_dispatch,
        applySteps_nil, applyOp, dispatchedEvents_cons_cacheOp, dispatchedEvents_cons_dispatch,
        dispatchedEvents_nil]
  · intro hflag gid hdec
    have htr : handle fac (Payload.guildDelete p) = some
        [Step.cacheOp (CacheOp.deleteGuild gid),
         Step.dispatch (Event.guildLeave gid)] := by
      simp [handle, on_guild_delete, hflag, hdec]
    refine ⟨htr, ?_, ?_⟩ <;>
      simp only [processOne, htr, applySteps_cons_cacheOp, applySteps_cons_dispatch,
        applySteps_nil, applyOp, dispatchedEvents_cons_cacheOp, dispatchedEvents_cons_dispatch,
        dispatchedEvents_nil]

/-- A decoder resolving both GUILD_DELETE variants to guild 9. -/
def facGuildDelete : EntityFactory :=
  { noDecode with
    deserialize_guild_unavailable_event := fun _ => some 9
    deserialize_guild_leave_event := fun _ => some 9 }

/-- A mirror holding guild 9 with one channel and one role, available. -/
def cacheWithGuild9 : CacheState :=
  ⟨none, [], [⟨9, 0⟩], [(9, true)], [⟨9, 2, 0⟩], [], [⟨9, 3, 0⟩], [], [], []⟩

/-- Witness for C3: the unavailable branch at a concrete payload only
flips guild 9's availability and keeps its children. -/
theorem guild_delete_branches_witness :
    handle facGuildDelete (Payload.guildDelete ⟨some true, 0⟩) = some
      [Step.cacheOp (CacheOp.setGuildAvailability 9 false),
       Step.dispatch (Event.guildUnavailable 9)] ∧
    (processOne facGuildDelete (Payload.guildDelete ⟨some true, 0⟩) cacheWithGuild9).1 =
      { cacheWithGuild9 with
        availability := cacheWithGuild9.availability.filter (fun a => !(a.1 == 9)) ++ [(9, false)] } ∧
    (processOne facGuildDelete (Payload.guildDelete ⟨some true, 0⟩) cacheWithGuild9).2 =
      [Event.guildUnavailable 9] :=
  (guild_delete_branches facGuildDelete ⟨some true, 0⟩ cacheWithGuild9).1 rfl 9 rfl

/-- Claim C10: when the raw GUILD_DELETE payload has no `unavailable`
field at all, the handler behaves exactly as if the field were present
with value false: it takes the leave branch, deleting the guild and
dispatching the GuildLeave event. -/
theorem guild_delete_missing_flag_is_leave (fac : EntityFactory) (p : GuildDeletePayload)
    (h : p.unavailable = none) :
    on_guild_delete fac p = on_guild_delete fac ⟨some false, p.rest⟩ ∧
    on_guild_delete fac p =
      (fac.deserialize_guild_leave_event p.rest).map
        (fun gid => [Step.cacheOp (CacheOp.deleteGuild gid),
                     Step.dispatch (Event.guildLeave gid)]) := by
  cases hd : fac.deserialize_guild_leave_event p.rest <;>
    simp [on_guild_delete, h, hd]

/-- Witness for C10 at a concrete flag-less payload. -/
theorem guild_delete_missing_flag_is_leave_witness :
    on_guild_delete facGuildDelete ⟨none, 5⟩ = on_guild_delete facGuildDelete ⟨some false, 5⟩ ∧
    on_guild_delete facGuildDelete ⟨none, 5⟩ =
      (facGuildDelete.deserialize_guild_leave_event 5).map
        (fun gid => [Step.cacheOp (CacheOp.deleteGuild gid),
                     Step.dispatch (Event.guildLeave gid)]) :=
  guild_delete_missing_flag_is_leave facGuildDelete ⟨none, 5⟩ rfl

theorem find?_filtered_append {β : Type} (l : List (Nat × β)) (gid : Nat) (b : β) :
    (l.filter (fun a => !(a.1 == gid)) ++ [(gid, b)]).find? (fun a => a.1 == gid)
      = some (gid, b) := by
  induction l with
  | nil => simp [List.find?]
  | cons x xs ih =>
      by_cases h : x.1 = gid
      · simp [List.filter_cons, h, ih]
      · simp [List.filter_cons, List.find?_cons, h, ih]

/-- Claim C2: GUILD_UPDATE mutates only the guild record (upserted and
marked available) and the roles and emojis of that guild (each replaced
by the decoded entries); channels, members, presences, voice states,
the self-user and the unavailable-guild set are unchanged, as is every
entry belonging to any other guild (preserved by the filters).  The
hypotheses record what the decoder guarantees: decoded roles and emojis
belong to the updated guild and carry pairwise distinct identities. -/
theorem guild_update_frame (fac : EntityFactory) (payload : Nat) (s : CacheState)
    (event : GuildUpdateEvent)
    (hdec : fac.deserialize_guild_update_event payload = some event)
    (hrg : ∀ r ∈ event.roles, r.guild_id = event.guild.id)
    (hrn : event.roles.Pairwise (fun a b => a.id ≠ b.id))
    (heg : ∀ e ∈ event.emojis, e.guild_id = event.guild.id)
    (hen : event.emojis.Pairwise (fun a b => a.id ≠ b.id)) :
    (processOne fac (Payload.guildUpdate payload) s).1 =
      { s with
        guilds := s.guilds.filter (fun x => !(x.id == event.guild.id)) ++ [event.guild]
        availability := s.availability.filter (fun a => !(a.1 == event.guild.id))
          ++ [(event.guild.id, true)]
        roles := s.roles.filter (fun r => !(r.guild_id == event.guild.id)) ++ event.roles
        emojis := s.emojis.filter (fun e => !(e.guild_id == event.guild.id)) ++ event.emojis } ∧
    (processOne fac (Payload.guildUpdate payload) s).2 = [Event.guildUpdate event] := by
  have hrun := on_guild_update_run fac payload s event hdec
  have hroles : event.roles.foldl (setKeyed roleKey)
      (s.roles.filter (fun r => !(r.guild_id == event.guild.id)))
      = s.roles.filter (fun r => !(r.guild_id == event.guild.id)) ++ event.roles := by
    apply foldl_setKeyed_fresh
    · intro x hx y hy hk
      have hyg : ¬ (y.guild_id = event.guild.id) := by
        simpa using List.of_mem_filter hy
      have h1 : y.guild_id = x.guild_id := congrArg Prod.fst hk
      exact hyg (h1.trans (hrg x hx))
    · exact hrn.imp (fun hab hk => hab (congrArg Prod.snd hk))
  have hemojis : event.emojis.foldl (setKeyed emojiKey)
      (s.emojis.filter (fun e => !(e.guild_id == event.guild.id)))
      = s.emojis.filter (fun e => !(e.guild_id == event.guild.id)) ++ event.emojis := by
    apply foldl_setKeyed_fresh
    · intro x hx y hy hk
      have hyg : ¬ (y.guild_id = event.guild.id) := by
        simpa using List.of_mem_filter hy
      have h1 : y.guild_id = x.guild_id := congrArg Prod.fst hk
      exact hyg (h1.trans (heg x hx))
    · exact hen.imp (fun hab hk => hab (congrArg Prod.snd hk))
  rw [hrun]
  exact ⟨by rw [← hroles, ← hemojis], rfl⟩

/-- Claim C8: GUILD_CREATE upserts the decoded guild record into the
mirror and marks the guild available before dispatching: in the final
state the guild record is present and its availability is `some true`,
and the dispatched events are exactly the GuildCreate event, emitted as
the last step of the handler's trace. -/
theorem guild_create_marks_available (fac : EntityFactory) (payload : Nat) (s : CacheState)
    (event : GuildCreateEvent)
    (hdec : fac.deserialize_guild_create_event payload = some event) :
    event.guild ∈ (processOne fac (Payload.guildCreate payload) s).1.guilds ∧
    availabilityOf (processOne fac (Payload.guildCreate payload) s).1 event.guild.id
      = some true ∧
    (processOne fac (Payload.guildCreate payload) s).2 = [Event.guildCreate event] ∧
    (∀ tr, handle fac (Payload.guildCreate payload) = some tr →
      tr.getLast? = some (Step.dispatch (Event.guildCreate event))) := by
  have hrun := on_guild_create_run fac payload s event hdec
  refine ⟨?_, ?_, ?_, ?_⟩
  · rw [hrun]
    simp
  · rw [hrun]
    simp only [availabilityOf]
    rw [find?_filtered_append]
    rfl
  · rw [hrun]
  · intro tr htr
    have h2 : handle fac (Payload.guildCreate payload) = some
        (([Step.cacheOp (CacheOp.updateGuild event.guild),
           Step.cacheOp (CacheOp.clearGuildChannels event.guild.id)]
          ++ event.channels.map (fun c => Step.cacheOp (CacheOp.setGuildChannel c))
          ++ [Step.cacheOp (CacheOp.clearEmojis event.guild.id)]
          ++ event.emojis.map (fun e => Step.cacheOp (CacheOp.setEmoji e))
          ++ [Step.cacheOp (CacheOp.clearRoles event.guild.id)]
          ++ event.roles.map (fun r => Step.cacheOp (CacheOp.setRole r))
          ++ [Step.cacheOp (CacheOp.clearMembers event.guild.id)]
          ++ event.members.map (fun m => Step.cacheOp (CacheOp.setMember m))
          ++ [Step.cacheOp (CacheOp.clearPresences event.guild.id)]
          ++ event.presences.map (fun p => Step.cacheOp (CacheOp.setPresence p))
          ++ event.voice_states.map (fun v => Step.cacheOp (CacheOp.setVoiceState v)))
          ++ [Step.dispatch (Event.guildCreate event)]) := by
      simp [handle, on_guild_create, hdec, List.append_assoc]
    rw [htr] at h2
    have h3 := Option.some.inj h2
    rw [h3, List.getLast?_concat]

theorem cacheThenDispatch_of_map_handler {β : Type} (o : Option β) (f : β → Event)
    (tr : List Step) (h : o.map (fun e => [Step.dispatch (f e)]) = some tr) :
    cacheThenDispatch tr := by
  cases o with
  | none => simp at h
  | some e =>
      simp only [Option.map_some', Option.some.injEq] at h
      subst h
      exact ⟨[], [f e], rfl⟩

/-- Claim C6: in every handler, every cache mutation strictly precedes
the dispatch: any trace a handler produces is a block of cache
operations followed by a block of dispatches, so by the time an event
reaches the sink all mirror mutations of its recipe are applied. -/
theorem cache_mutations_precede_dispatch (fac : EntityFactory) (p : Payload) (tr : List Step)
    (h : handle fac p = some tr) : cacheThenDispatch tr := by
  cases p <;>
    first
    | exact cacheThenDispatch_of_map_handler _ _ tr h
    | exact ⟨[], [_], (Option.some.inj h).symm⟩
    | exact ⟨[], [], (Option.some.inj h).symm⟩
    | skip
  · -- READY
    simp only [handle, on_ready] at h
    split at h
    · exact absurd h (by simp)
    · rename_i event heq
      have h3 := Option.some.inj h
      subst h3
      exact ⟨[CacheOp.updateMe event.my_user,
              CacheOp.setInitialUnavailableGuilds event.unavailable_guilds],
             [Event.ready event], rfl⟩
  · -- GUILD_CREATE
    simp only [handle, on_guild_create] at h
    split at h
    · exact absurd h (by simp)
    · rename_i event heq
      have h3 := Option.some.inj h
      subst h3
      refine ⟨[CacheOp.updateGuild event.guild, CacheOp.clearGuildChannels event.guild.id]
          ++ event.channels.map CacheOp.setGuildChannel
          ++ [CacheOp.clearEmojis event.guild.id]
          ++ event.emojis.map CacheOp.setEmoji
          ++ [CacheOp.clearRoles event.guild.id]
          ++ event.roles.map CacheOp.setRole
          ++ [CacheOp.clearMembers event.guild.id]
          ++ event.members.map CacheOp.setMember
          ++ [CacheOp.clearPresences event.guild.id]
          ++ event.presences.map CacheOp.setPresence
          ++ event.voice_states.map CacheOp.setVoiceState,
        [Event.guildCreate event], ?_⟩
      simp [List.map_append, List.map_map, Function.comp_def, List.append_assoc]
  · -- GUILD_UPDATE
    simp only [handle, on_guild_update] at h
    split at h
    · exact absurd h (by simp)
    · rename_i event heq
      have h3 := Option.some.inj h
      subst h3
      refine ⟨[CacheOp.updateGuild event.guild, CacheOp.clearRoles event.guild.id]
          ++ event.roles.map CacheOp.setRole
          ++ [CacheOp.clearEmojis event.guild.id]
          ++ event.emojis.map CacheOp.setEmoji,
        [Event.guildUpdate event], ?_⟩
      simp [List.map_append, List.map_map, Function.comp_def, List.append_assoc]
  · -- GUILD_DELETE
    simp only [handle, on_guild_delete] at h
    split at h
    · split at h
      · exact absurd h (by simp)
      · rename_i gid heq
        have h3 := Option.some.inj h
        subst h3
        exact ⟨[CacheOp.setGuildAvailability gid false], [Event.guildUnavailable gid], rfl⟩
    · split at h
      · exact absurd h (by simp)
      · rename_i gid heq
        have h3 := Option.some.inj h
        subst h3
        exact ⟨[CacheOp.deleteGuild gid], [Event.guildLeave gid], rfl⟩

/-- Witness for C6 at a concrete READY trace. -/
theorem cache_mutations_precede_dispatch_witness :
    cacheThenDispatch [Step.cacheOp (CacheOp.updateMe ⟨2, 0⟩),
      Step.cacheOp (CacheOp.setInitialUnavailableGuilds [1, 4]),
      Step.dispatch (Event.ready ⟨⟨2, 0⟩, [1, 4]⟩)] :=
  cache_mutations_precede_dispatch facReady (Payload.ready 0)
    [Step.cacheOp (CacheOp.updateMe ⟨2, 0⟩),
     Step.cacheOp (CacheOp.setInitialUnavailableGuilds [1, 4]),
     Step.dispatch (Event.ready ⟨⟨2, 0⟩, [1, 4]⟩)] rfl

/-- Claim C5: when the decoder fails on a payload of any kind, the
handler produces no trace at all — no mirror mutation and no dispatch —
and the rest of the payload stream is processed exactly as if the
failing payload had not been delivered. -/
theorem decode_failure_is_isolated (fac : EntityFactory) (p : Payload) (ps : List Payload)
    (s : CacheState) (h : decodeFails fac p = true) :
    handle fac p = none ∧ processAll fac (p :: ps) s = processAll fac ps s := by
  have h1 : handle fac p = none := by
    cases p
    case guildDelete q =>
      by_cases hc : q.unavailable.getD false = true
      · simp only [decodeFails, hc, if_true, Option.isNone_iff_eq_none] at h
        simp [handle, on_guild_delete, hc, h]
      · have hc2 : q.unavailable.getD false = false := by
          cases hq : q.unavailable.getD false
          · rfl
          · exact absurd hq hc
        simp only [decodeFails, hc2, Bool.false_eq_true, if_false,
          Option.isNone_iff_eq_none] at h
        simp [handle, on_guild_delete, hc2, h]
    all_goals first
      | exact Bool.noConfusion h
      | (simp only [decodeFails, Option.isNone_iff_eq_none] at h
         simp [handle, on_ready, on_channel_create, on_channel_update, on_channel_delete,
           on_channel_pins_update, on_guild_create, on_guild_update, on_guild_ban_add,
           on_guild_ban_remove, on_guild_emojis_update, on_guild_integrations_update,
           on_guild_member_add, on_guild_member_remove, on_guild_member_update,
           on_guild_role_create, on_guild_role_update, on_guild_role_delete,
           on_invite_create, on_invite_delete, on_message_create, on_message_update,
           on_message_delete, on_message_delete_bulk, on_message_reaction_add,
           on_message_reaction_remove, on_message_reaction_remove_all,
           on_message_reaction_remove_emoji, on_presence_update, on_typing_start,
           on_user_update, on_voice_state_update, on_voice_server_update,
           on_webhooks_update, h])
  refine ⟨h1, ?_⟩
  simp [processAll, h1]

/-- Witness for C5: the all-failing decoder drops a CHANNEL_CREATE
payload and the stream continues with the next payload. -/
theorem decode_failure_is_isolated_witness :
    handle noDecode (Payload.channelCreate 0) = none ∧
    processAll noDecode [Payload.channelCreate 0, Payload.guildMembersChunk 1] emptyCache
      = processAll noDecode [Payload.guildMembersChunk 1] emptyCache :=
  decode_failure_is_isolated noDecode (Payload.channelCreate 0)
    [Payload.guildMembersChunk 1] emptyCache rfl

/-- A concrete decoded GUILD_UPDATE event for guild 1: two roles, one
emoji. -/
def guEvent : GuildUpdateEvent :=
  ⟨⟨1, 5⟩, [⟨1, 20, 0⟩, ⟨1, 21, 0⟩], [⟨1, 30, 0⟩]⟩

/-- A decoder yielding `guEvent` for every GUILD_UPDATE payload. -/
def facGuildUpdate : EntityFactory :=
  { noDecode with deserialize_guild_update_event := fun _ => some guEvent }

/-- A populated mirror with children of guilds 1 and 2. -/
def cacheForUpdate : CacheState :=
  ⟨some ⟨2, 0⟩, [4], [⟨1, 0⟩, ⟨2, 0⟩], [(1, true), (2, true)], [⟨1, 7, 0⟩], [⟨2, 8, 0⟩],
   [⟨1, 9, 0⟩, ⟨2, 9, 0⟩], [⟨1, 11, 0⟩], [⟨1, 12, 0⟩], [⟨1, 13, 0⟩]⟩

/-- Witness for C2 at a concrete GUILD_UPDATE. -/
theorem guild_update_frame_witness :
    (processOne facGuildUpdate (Payload.guildUpdate 0) cacheForUpdate).1 =
      { cacheForUpdate with
        guilds := cacheForUpdate.guilds.filter (fun x => !(x.id == guEvent.guild.id))
          ++ [guEvent.guild]
        availability := cacheForUpdate.availability.filter (fun a => !(a.1 == guEvent.guild.id))
          ++ [(guEvent.guild.id, true)]
        roles := cacheForUpdate.roles.filter (fun r => !(r.guild_id == guEvent.guild.id))
          ++ guEvent.roles
        emojis := cacheForUpdate.emojis.filter (fun e => !(e.guild_id == guEvent.guild.id))
          ++ guEvent.emojis } ∧
    (processOne facGuildUpdate (Payload.guildUpdate 0) cacheForUpdate).2 =
      [Event.guildUpdate guEvent] :=
  guild_update_frame facGuildUpdate 0 cacheForUpdate guEvent rfl
    (by decide) (by decide) (by decide) (by decide)

/-- Witness for C8 at the first concrete snapshot of guild 1. -/
theorem guild_create_marks_available_witness :
    gcFirst.guild ∈ (processOne facTwoSnapshots (Payload.guildCreate 0) emptyCache).1.guilds ∧
    availabilityOf (processOne facTwoSnapshots (Payload.guildCreate 0) emptyCache).1
      gcFirst.guild.id = some true ∧
    (processOne facTwoSnapshots (Payload.guildCreate 0) emptyCache).2 =
      [Event.guildCreate gcFirst] :=
  ⟨(guild_create_marks_available facTwoSnapshots 0 emptyCache gcFirst rfl).1,
   (guild_create_marks_available facTwoSnapshots 0 emptyCache gcFirst rfl).2.1,
   (guild_create_marks_available facTwoSnapshots 0 emptyCache gcFirst rfl).2.2.1⟩
